import Mathlib

/-!
Verification development for the BotCore trading decision pipeline.

Shallow embedding of the Python sources:
  brain.py          (`_parse_gpt_response`, `_get_market_data_cached`,
                     the decision-step failure handling of `sod_action` /
                     `intraday_action`)
  ohlc_analyzer.py  (`analyze_ohlc_data`, `_detect_fvgs`, `_detect_bos`,
                     `_find_swings`, `_detect_imbalances`,
                     `_check_level_interactions`, `_analyze_price_action`)
  chart_analyzer.py (`analyze_charts_with_gpt_vision`, `_parse_chart_response`,
                     `format_symbol_for_chart`)
  database.py       (`save_setup_state`, `get_active_setup`)

Modelling conventions:
  * Python `dict`/JSON values are an inductive `JValue`; dict access is
    first-match association-list lookup (keys are unique in practice).
  * Prices are `ℚ` (exact model of the float comparisons in the source,
    none of which are precision-sensitive), timestamps are `ℤ` (UTC
    seconds).
  * `json.loads` is an opaque collaborator: embedded functions take a
    `jsonLoads : List Char → Option JValue` parameter, where `none` models
    a raised `json.JSONDecodeError` (the only exception the source's
    parse helpers can raise, and the one they catch).  A small concrete
    JSON reader `jsonParse` is provided for evaluating closed instances.
  * Python strings are `List Char`; `pyFind`/`pySlice`/`pyStrip` mirror
    `str.find` (`-1` when absent), slicing (incl. negative end index) and
    `str.strip`.
-/

namespace BotCore

/-- JSON values / Python dicts as produced by `json.loads`. -/
inductive JValue where
  | null : JValue
  | bool (b : Bool) : JValue
  | num (q : ℚ) : JValue
  | str (s : String) : JValue
  | arr (elems : List JValue) : JValue
  | obj (fields : List (String × JValue)) : JValue

/-- First-match association-list lookup (Python `dict.get`). -/
def alGet {α : Type} : List (String × α) → String → Option α
  | [], _ => none
  | (k, v) :: rest, key => if k = key then some v else alGet rest key

/-- Lookup `d[key]` on a JSON object; `none` when absent or not an object. -/
def JValue.get? : JValue → String → Option JValue
  | .obj fields, key => alGet fields key
  | _, _ => none

/-- Assignment `d[key] = v` on an association list: replace the first binding of
`key`, or append one (Python dict item assignment). -/
def alSet {α : Type} : List (String × α) → String → α → List (String × α)
  | [], k, v => [(k, v)]
  | (k', v') :: rest, k, v =>
      if k' = k then (k, v) :: rest else (k', v') :: alSet rest k v

/- ---------------------------------------------------------------------
Python string helpers
--------------------------------------------------------------------- -/

/-- Characters stripped by Python `str.strip()` (the ones arising here). -/
def isPyWs (c : Char) : Bool :=
  c = ' ' || c = '\n' || c = '\t' || c = '\r'

/-- Whether `hay` starts with `pat`. -/
def listStartsWith : List Char → List Char → Bool
  | _, [] => true
  | [], _ :: _ => false
  | h :: hs, p :: ps => h = p && listStartsWith hs ps

/-- Index of the first occurrence of `pat` in `hay`, if any. -/
def findSubIdx : List Char → List Char → Option Nat
  | [], pat => if pat = [] then some 0 else none
  | h :: t, pat =>
      if listStartsWith (h :: t) pat then some 0
      else (findSubIdx t pat).map (· + 1)

/-- Python `hay.find(pat)`: index of first occurrence, `-1` if absent. -/
def pyFind (hay pat : List Char) : Int :=
  match findSubIdx hay pat with
  | some i => (i : Int)
  | none => -1

/-- Python `hay.find(pat, start)`. -/
def pyFindFrom (hay pat : List Char) (start : Nat) : Int :=
  match findSubIdx (hay.drop start) pat with
  | some i => ((start + i : Nat) : Int)
  | none => -1

/-- Python `pat in hay`. -/
def pyContains (hay pat : List Char) : Bool :=
  (findSubIdx hay pat).isSome

/-- Python `s[a:b]` for `a ≥ 0` and a possibly negative `b`
(a negative `b` counts from the end, as in `s[start:-1]`). -/
def pySlice (s : List Char) (a : Nat) (b : Int) : List Char :=
  let e : Int := if b < 0 then (s.length : Int) + b else b
  if e ≤ (a : Int) then [] else (s.drop a).take (e - (a : Int)).toNat

/-- Python `s.strip()`. -/
def pyStrip (s : List Char) : List Char :=
  ((s.dropWhile isPyWs).reverse.dropWhile isPyWs).reverse

/-- Index of the last occurrence of character `c` in `s`. -/
def lastIdxOf (c : Char) (s : List Char) : Option Nat :=
  match s.reverse.findIdx? (· = c) with
  | some i => some (s.length - 1 - i)
  | none => none

/-- Model of `re.search(r'\x7b.*\x7d', s, re.DOTALL)`: with `j` the index of the
last closing brace and `i` the index of the first opening brace before
it, the (greedy) match is `s[i..j]`; no match when no such pair exists. -/
def reSearchBraces (s : List Char) : Option (List Char) :=
  match lastIdxOf '\x7d' s with
  | none => none
  | some j =>
      match (s.take j).findIdx? (· = '\x7b') with
      | none => none
      | some i => some ((s.drop i).take (j + 1 - i))

/- ---------------------------------------------------------------------
Shared GPT-response JSON extraction (identical in brain._parse_gpt_response
and chart_analyzer._parse_chart_response)
--------------------------------------------------------------------- -/

/-- The markdown fence `\x60\x60\x60json` (7 characters). -/
def fenceJson : List Char := "\x60\x60\x60json".data

/-- The bare markdown fence (3 backticks). -/
def fence3 : List Char := "\x60\x60\x60".data

/-- Fence-stripping step shared by both parsers: cut out the fenced block
if present (`text[start:end].strip()`, where a missing closing fence
yields Python's `find = -1` slice semantics), else `text.strip()`. -/
def stripFences (responseText : List Char) : List Char :=
  if pyContains responseText fenceJson then
    let s : Nat := (pyFind responseText fenceJson).toNat + 7
    pyStrip (pySlice responseText s (pyFindFrom responseText fence3 s))
  else if pyContains responseText fence3 then
    let s : Nat := (pyFind responseText fence3).toNat + 3
    pyStrip (pySlice responseText s (pyFindFrom responseText fence3 s))
  else
    pyStrip responseText

/-- The single decode attempt both parsers make: `json.loads` on the
regex-extracted outermost brace span when one exists, else on the whole
stripped string.  `none` models a raised `json.JSONDecodeError`. -/
def jsonAttempt (jsonLoads : List Char → Option JValue)
    (responseText : List Char) : Option JValue :=
  let jsonStr := stripFences responseText
  match reSearchBraces jsonStr with
  | some m => jsonLoads m
  | none => jsonLoads jsonStr

/-- brain.py `_parse_gpt_response`: on decode failure it catches the
`JSONDecodeError` and returns the fallback dict
`{"error": "Failed to parse AI response", "raw_response": response_text[:500]}`. -/
def parse_gpt_response (jsonLoads : List Char → Option JValue)
    (responseText : List Char) : JValue :=
  match jsonAttempt jsonLoads responseText with
  | some v => v
  | none =>
      .obj [("error", .str "Failed to parse AI response"),
            ("raw_response", .str (String.mk (pySlice responseText 0 500)))]

/- ---------------------------------------------------------------------
A small concrete JSON reader, used to evaluate closed instances of the
`jsonLoads` collaborator (a conservative model of Python `json.loads`:
whitespace, null/true/false, simple numbers, escape-free strings, arrays
and objects; no trailing commas, full input must be consumed).
--------------------------------------------------------------------- -/

/-- Skip JSON whitespace. -/
def skipWs : List Char → List Char
  | c :: rest => if isPyWs c then skipWs rest else c :: rest
  | [] => []

def isDigitCh (c : Char) : Bool := '0' ≤ c && c ≤ '9'

def digitsToNat (ds : List Char) : Nat :=
  ds.foldl (fun acc c => acc * 10 + (c.toNat - 48)) 0

/-- JSON string body after the opening quote (escapes unsupported). -/
def parseJStr : List Char → Option (List Char × List Char)
  | [] => none
  | c :: rest =>
      if c = '"' then some ([], rest)
      else if c = '\\' then none
      else match parseJStr rest with
        | some (s, r) => some (c :: s, r)
        | none => none

/-- JSON number `-?digits(.digits)?` as a rational. -/
def parseJNum (cs : List Char) : Option (JValue × List Char) :=
  let (neg, cs1) := match cs with
    | '-' :: r => (true, r)
    | _ => (false, cs)
  let ip := cs1.takeWhile isDigitCh
  let cs2 := cs1.dropWhile isDigitCh
  if ip = [] then none
  else
    let whole : ℚ := (digitsToNat ip : ℚ)
    match cs2 with
    | '.' :: r =>
        let fp := r.takeWhile isDigitCh
        let cs3 := r.dropWhile isDigitCh
        if fp = [] then none
        else
          let q : ℚ := whole + (digitsToNat fp : ℚ) / ((10 : ℚ) ^ fp.length)
          some (.num (if neg then -q else q), cs3)
    | _ => some (.num (if neg then -whole else whole), cs2)

mutual

/-- JSON value parser (fuel-driven; fuel `length + 2` always suffices). -/
def parseJValue : Nat → List Char → Option (JValue × List Char)
  | 0, _ => none
  | Nat.succ fuel, cs =>
      match skipWs cs with
      | [] => none
      | c :: rest =>
          if c = 'n' then
            if listStartsWith (c :: rest) "null".data
            then some (.null, (c :: rest).drop 4) else none
          else if c = 't' then
            if listStartsWith (c :: rest) "true".data
            then some (.bool true, (c :: rest).drop 4) else none
          else if c = 'f' then
            if listStartsWith (c :: rest) "false".data
            then some (.bool false, (c :: rest).drop 5) else none
          else if c = '"' then
            match parseJStr rest with
            | some (s, r) => some (.str (String.mk s), r)
            | none => none
          else if c = '\x7b' then
            match parseJObjRest fuel rest true with
            | some (fields, r) => some (.obj fields, r)
            | none => none
          else if c = '[' then
            match parseJArrRest fuel rest true with
            | some (elems, r) => some (.arr elems, r)
            | none => none
          else parseJNum (c :: rest)

/-- Object members after `\x7b` or after a comma; `allowEnd` permits an
immediate `\x7d` (only right after the opening brace). -/
def parseJObjRest : Nat → List Char → Bool → Option (List (String × JValue) × List Char)
  | 0, _, _ => none
  | Nat.succ fuel, cs, allowEnd =>
      match skipWs cs with
      | '\x7d' :: rest => if allowEnd then some ([], rest) else none
      | '"' :: rest =>
          match parseJStr rest with
          | some (k, r1) =>
              (match skipWs r1 with
               | ':' :: r2 =>
                   match parseJValue fuel r2 with
                   | some (v, r3) =>
                       (match skipWs r3 with
                        | ',' :: r4 =>
                            (match parseJObjRest fuel r4 false with
                             | some (flds, r) => some ((String.mk k, v) :: flds, r)
                             | none => none)
                        | '\x7d' :: r4 => some ([(String.mk k, v)], r4)
                        | _ => none)
                   | none => none
               | _ => none)
          | none => none
      | _ => none

/-- Array elements after `[` or after a comma. -/
def parseJArrRest : Nat → List Char → Bool → Option (List JValue × List Char)
  | 0, _, _ => none
  | Nat.succ fuel, cs, allowEnd =>
      match skipWs cs with
      | ']' :: rest => if allowEnd then some ([], rest) else none
      | cs' =>
          match parseJValue fuel cs' with
          | some (v, r1) =>
              (match skipWs r1 with
               | ',' :: r2 =>
                   (match parseJArrRest fuel r2 false with
                    | some (elems, r) => some (v :: elems, r)
                    | none => none)
               | ']' :: r2 => some ([v], r2)
               | _ => none)
          | none => none

end

/-- Concrete `json.loads` model: parse one value, require only
whitespace to remain. -/
def jsonParse (s : List Char) : Option JValue :=
  match parseJValue (s.length + 2) s with
  | some (v, rest) => if skipWs rest = [] then some v else none
  | none => none

/- ---------------------------------------------------------------------
brain.py — decision step of the two workflows (step 3 of `sod_action` /
`intraday_action`).

Steps 0-2 of both workflows cannot raise: every DB read
(`get_current_positions`, `get_analysis_note`) catches its own
exceptions, and each fan-out branch's exception is caught at
`future.result()` and degraded to an empty dict.  The try/except of the
source therefore guards exactly the decision step: the `call_gpt`
invocation (modelled as an `Except String` collaborator, `.error e`
being a raised exception with message `e`), the response parse, and the
metadata item-assignment (a Python `TypeError` when the parsed response
is not a dict).  The inner `save_analysis_note` / `clear_analysis_notes`
calls have their own try/except and do not affect the returned value.
--------------------------------------------------------------------- -/

/-- The dict returned by `sod_action`'s top-level `except` clause. -/
def sodErrorDict (symbol nowIso : String) (msg : String) : JValue :=
  .obj [("error", .str ("Failed to complete SOD analysis: " ++ msg)),
        ("symbol", .str symbol),
        ("analysis_timestamp", .str nowIso)]

/-- The dict returned by `intraday_action`'s top-level `except` clause. -/
def intradayErrorDict (symbol nowIso : String) (msg : String) : JValue :=
  .obj [("error", .str ("Failed to complete intraday analysis: " ++ msg)),
        ("symbol", .str symbol),
        ("analysis_timestamp", .str nowIso)]

/-- Item assignment `result["sod_metadata"] = meta`: it succeeds only on a
dict (otherwise Python raises `TypeError`, caught by the outer except). -/
def pySetItem (v : JValue) (key : String) (val : JValue) : Option JValue :=
  match v with
  | .obj fields => some (.obj (alSet fields key val))
  | _ => none

def sodMetadata (symbol nowIso : String) (ohlcKeys chartTimeframes : List String)
    (previousRunUsed : Bool) : JValue :=
  .obj [("symbol", .str symbol),
        ("analysis_timestamp", .str nowIso),
        ("ohlc_timeframes_analyzed", .arr (ohlcKeys.map .str)),
        ("chart_timeframes_analyzed", .arr (chartTimeframes.map .str)),
        ("previous_run_context_used", .bool previousRunUsed)]

/-- Decision step of `sod_action` (brain.py, the `try` block of step 3):
parse the GPT response, attach `sod_metadata`, and convert any raised
exception into the error dict. -/
def sod_action_decision (jsonLoads : List Char → Option JValue)
    (symbol nowIso : String) (ohlcKeys : List String)
    (previousRunUsed : Bool)
    (gptCall : Except String (List Char)) : JValue :=
  match gptCall with
  | .error e => sodErrorDict symbol nowIso e
  | .ok responseText =>
      let result := parse_gpt_response jsonLoads responseText
      let meta := sodMetadata symbol nowIso ohlcKeys ["H1", "H4", "D1", "W1"] previousRunUsed
      match pySetItem result "sod_metadata" meta with
      | some r => r
      | none => sodErrorDict symbol nowIso "TypeError: item assignment on a non-dict response"

def intradayMetadata (symbol nowIso : String) (timeframes : List String)
    (sodUsed lastRunUsed marketFromCache : Bool) : JValue :=
  .obj [("symbol", .str symbol),
        ("analysis_timestamp", .str nowIso),
        ("timeframes_analyzed", .arr (timeframes.map .str)),
        ("sod_context_used", .bool sodUsed),
        ("last_run_context_used", .bool lastRunUsed),
        ("market_data_from_cache", .bool marketFromCache)]

/-- Decision step of `intraday_action` (brain.py, the `try` block of
step 3). -/
def intraday_action_decision (jsonLoads : List Char → Option JValue)
    (symbol nowIso : String) (timeframes : List String)
    (sodUsed lastRunUsed marketFromCache : Bool)
    (gptCall : Except String (List Char)) : JValue :=
  match gptCall with
  | .error e => intradayErrorDict symbol nowIso e
  | .ok responseText =>
      let result := parse_gpt_response jsonLoads responseText
      let meta := intradayMetadata symbol nowIso timeframes sodUsed lastRunUsed marketFromCache
      match pySetItem result "intraday_metadata" meta with
      | some r => r
      | none => intradayErrorDict symbol nowIso "TypeError: item assignment on a non-dict response"

/- ---------------------------------------------------------------------
brain.py — `_get_market_data_cached` (market-data note cache).
--------------------------------------------------------------------- -/

/-- Outcome of reading `_db_created_at` from a cached note and feeding it
to `datetime.fromisoformat`: the key may be absent, its string may fail
to parse (caught `except`), or it parses to a UTC instant (modelled in
seconds; the naive-datetime branch that attaches `tzinfo=utc` is folded
into the parsed value). -/
inductive TsField where
  | missing : TsField
  | unreadable : TsField
  | readable : ℤ → TsField
deriving DecidableEq

/-- The `(symbol, market_data_note)` row: the dict returned by
`get_analysis_note` plus its creation-timestamp field. -/
structure CachedNote where
  data : JValue
  createdAt : TsField

/-- Constant `MARKET_DATA_CACHE_HOURS = 4`, in seconds: the source computes
`age_hours = (now - created_at).total_seconds() / 3600` and tests
`age_hours < 4`, i.e. `now - created_at < 14400` seconds exactly. -/
def MARKET_DATA_CACHE_SECONDS : ℤ := 14400

/-- brain.py `_get_market_data_cached`, as a transition on the single
`(symbol, market_data_note)` store slot.  `freshData` is the value
`get_market_data(symbol)` would return; `save_analysis_note` upserts the
slot with `created_at = CURRENT_TIMESTAMP` (overwrite semantics).
Returns (returned dict, new slot content). -/
def get_market_data_cached (now : ℤ) (store : Option CachedNote)
    (freshData : JValue) : JValue × Option CachedNote :=
  let refetch : JValue × Option CachedNote :=
    (freshData, some { data := freshData, createdAt := .readable now })
  match store with
  | some cached =>
      match cached.createdAt with
      | .readable t =>
          if now - t < MARKET_DATA_CACHE_SECONDS then (cached.data, some cached)
          else refetch
      | .unreadable => refetch
      | .missing => refetch
  | none => refetch

/- ---------------------------------------------------------------------
ohlc_analyzer.py — pattern detector.
--------------------------------------------------------------------- -/

/-- One MT5 candle (`volume` is never read by the analyzer; `open` is
spelled `open_` since `open` is a Lean keyword). -/
structure Candle where
  time : ℤ
  open_ : ℚ
  high : ℚ
  low : ℚ
  close : ℚ
deriving DecidableEq

/-- A detected fair-value gap. -/
structure Fvg where
  type : String
  timeframe : String
  top : ℚ
  bottom : ℚ
  timestamp : ℤ
  filled : Bool
deriving DecidableEq

/-- The bullish FVG record appended for window `(prev, curr, next) = (a, b, c)`. -/
def fvgBull (tf : String) (a b c : Candle) : Fvg :=
  { type := "bullish", timeframe := tf, top := c.low, bottom := a.high,
    timestamp := b.time, filled := false }

/-- The bearish FVG record appended for window `(prev, curr, next) = (a, b, c)`. -/
def fvgBear (tf : String) (a b c : Candle) : Fvg :=
  { type := "bearish", timeframe := tf, top := a.low, bottom := c.high,
    timestamp := b.time, filled := false }

/-- The `for i in range(1, len-1)` loop shape shared by `_detect_fvgs`
and `_find_swings`: visit every consecutive 3-candle window, in order. -/
def windowTriples {α β : Type} (g : α → α → α → List β) : List α → List β
  | a :: b :: c :: rest => g a b c ++ windowTriples g (b :: c :: rest)
  | _ => []

/-- The `for i, x in enumerate(xs): … xs[i-1] …` loop shape of
`_detect_bos`: visit every consecutive pair, in order. -/
def windowPairs {α β : Type} (g : α → α → List β) : List α → List β
  | p :: c :: rest => g p c ++ windowPairs g (c :: rest)
  | _ => []

/-- Body of the `_detect_fvgs` loop for one 3-candle window
(`if prev.high < next.low … elif prev.low > next.high …`). -/
def fvgCheck (tf : String) (a b c : Candle) : List Fvg :=
  if a.high < c.low then [fvgBull tf a b c]
  else if a.low > c.high then [fvgBear tf a b c]
  else []

/-- ohlc_analyzer.py `_detect_fvgs`. -/
def detect_fvgs (candles : List Candle) (timeframe : String) : List Fvg :=
  if candles.length < 3 then [] else windowTriples (fvgCheck timeframe) candles

inductive SwingType where
  | high : SwingType
  | low : SwingType
deriving DecidableEq

/-- A swing record: `{"type": …, "high"/"low": price, "time": …}`. -/
structure Swing where
  type : SwingType
  price : ℚ
  time : ℤ
deriving DecidableEq

/-- Body of the `_find_swings` loop for one 3-candle window: a swing
high and a swing low may both be appended for the same candle. -/
def swingCheck (a b c : Candle) : List Swing :=
  (if b.high > a.high ∧ b.high > c.high
   then [{ type := .high, price := b.high, time := b.time }] else []) ++
  (if b.low < a.low ∧ b.low < c.low
   then [{ type := .low, price := b.low, time := b.time }] else [])

/-- ohlc_analyzer.py `_find_swings`. -/
def find_swings (candles : List Candle) : List Swing :=
  if candles.length < 3 then [] else windowTriples swingCheck candles

structure BosSignal where
  type : String
  timeframe : String
  price : ℚ
  timestamp : ℤ
  previous_swing : ℚ
deriving DecidableEq

def bosBull (tf : String) (prev curr : Swing) : BosSignal :=
  { type := "bullish", timeframe := tf, price := curr.price,
    timestamp := curr.time, previous_swing := prev.price }

def bosBear (tf : String) (prev curr : Swing) : BosSignal :=
  { type := "bearish", timeframe := tf, price := curr.price,
    timestamp := curr.time, previous_swing := prev.price }

/-- Body of the `_detect_bos` loop for one consecutive swing pair
(`prev = swings[i-1]`, `curr = swings[i]`).  `prev_swing.get("high")`
is truthy exactly when `prev` is a high-type swing with a nonzero
price (Python truthiness of `0.0`), and symmetrically for `"low"`. -/
def bosCheck (tf : String) (prev curr : Swing) : List BosSignal :=
  if curr.type = SwingType.high ∧ prev.type = SwingType.high ∧ prev.price ≠ 0 then
    if curr.price > prev.price then [bosBull tf prev curr] else []
  else if curr.type = SwingType.low ∧ prev.type = SwingType.low ∧ prev.price ≠ 0 then
    if curr.price < prev.price then [bosBear tf prev curr] else []
  else []

/-- ohlc_analyzer.py `_detect_bos`. -/
def detect_bos (candles : List Candle) (timeframe : String) : List BosSignal :=
  if candles.length < 5 then [] else windowPairs (bosCheck timeframe) (find_swings candles)

structure Imbalance where
  type : String
  timeframe : String
  price : ℚ
  timestamp : ℤ
  strength : ℚ
deriving DecidableEq

/-- Body of the `_detect_imbalances` loop for one candle. -/
def imbalanceCheck (tf : String) (c : Candle) : List Imbalance :=
  let bodySize := |c.close - c.open_|
  let totalRange := c.high - c.low
  if totalRange > 0 then
    let bodyRatio := bodySize / totalRange
    if bodyRatio > 7 / 10 then
      [{ type := if c.close > c.open_ then "bullish" else "bearish",
         timeframe := tf, price := c.close, timestamp := c.time,
         strength := bodyRatio }]
    else []
  else []

/-- ohlc_analyzer.py `_detect_imbalances`. -/
def detect_imbalances (candles : List Candle) (timeframe : String) : List Imbalance :=
  candles.flatMap (imbalanceCheck timeframe)

/-- A locked level as read by `_check_level_interactions`: only `id` and
`price` are consulted (`level.get("price")` may be absent). -/
structure Level where
  id : ℤ
  price : Option ℚ
deriving DecidableEq

structure LevelInteraction where
  level_id : ℤ
  level_price : ℚ
  current_price : ℚ
  distance_pips : ℚ
  status : String
deriving DecidableEq

/-- Body of the `_check_level_interactions` loop: `if not level_price:
continue` skips an absent price and a price of `0.0` (truthiness). -/
def levelCheck (currentPrice : ℚ) (lv : Level) : List LevelInteraction :=
  match lv.price with
  | none => []
  | some p =>
      if p = 0 then []
      else
        let distance := |currentPrice - p| * 10000
        if distance < 20 then
          [{ level_id := lv.id, level_price := p, current_price := currentPrice,
             distance_pips := distance,
             status := if distance < 10 then "near" else "approaching" }]
        else []

/-- ohlc_analyzer.py `_check_level_interactions`. -/
def check_level_interactions (currentPrice : ℚ) (lockedLevels : List Level) :
    List LevelInteraction :=
  lockedLevels.flatMap (levelCheck currentPrice)

structure PriceActionSummary where
  current_price : ℚ
  trend : String
  recent_candles_count : ℕ
deriving DecidableEq

/-- The `ohlc_data` argument: caller-keyed candle series plus the
`current_price` entry. -/
structure OhlcInput where
  series : List (String × List Candle)
  current_price : Option ℚ

/-- Lookup `ohlc_data.get(key, [])`. -/
def OhlcInput.get (d : OhlcInput) (key : String) : List Candle :=
  (alGet d.series key).getD []

/-- ohlc_analyzer.py `_analyze_price_action`: `{}` (here `none`) unless
both H1 data and a truthy current price are present. -/
def analyze_price_action (d : OhlcInput) : Option PriceActionSummary :=
  let h1 := d.get "H1"
  match d.current_price with
  | none => none
  | some cp =>
      if cp = 0 ∨ h1 = [] then none
      else
        let recent := if h1.length ≥ 10 then h1.drop (h1.length - 10) else h1
        let trend :=
          if recent.length ≥ 2 then
            match recent.head?, recent.getLast? with
            | some first, some last =>
                if last.close > first.close then "bullish" else "bearish"
            | _, _ => "neutral"
          else "neutral"
        some { current_price := cp, trend := trend,
               recent_candles_count := recent.length }

/-- The analysis bundle built by `analyze_ohlc_data`. -/
structure OhlcAnalysis where
  fvgs : List Fvg
  bos_signals : List BosSignal
  imbalances : List Imbalance
  price_action : Option PriceActionSummary
  level_interactions : List LevelInteraction
deriving DecidableEq

/-- ohlc_analyzer.py `analyze_ohlc_data`: only the fixed keys `H1`,
`M15`, `M5`, `M1` are consulted (`H1`: FVG + BOS + imbalance; `M15`,
`M5`: FVG + BOS; `M1`: FVG), each guarded by list truthiness. -/
def analyze_ohlc_data (ohlcData : OhlcInput) (lockedLevels : List Level) :
    OhlcAnalysis :=
  let h1 := ohlcData.get "H1"
  let m15 := ohlcData.get "M15"
  let m5 := ohlcData.get "M5"
  let m1 := ohlcData.get "M1"
  { fvgs :=
      (if h1 ≠ [] then detect_fvgs h1 "H1" else []) ++
      (if m15 ≠ [] then detect_fvgs m15 "M15" else []) ++
      (if m5 ≠ [] then detect_fvgs m5 "M5" else []) ++
      (if m1 ≠ [] then detect_fvgs m1 "M1" else [])
    bos_signals :=
      (if h1 ≠ [] then detect_bos h1 "H1" else []) ++
      (if m15 ≠ [] then detect_bos m15 "M15" else []) ++
      (if m5 ≠ [] then detect_bos m5 "M5" else [])
    imbalances := if h1 ≠ [] then detect_imbalances h1 "H1" else []
    price_action := analyze_price_action ohlcData
    level_interactions :=
      match ohlcData.current_price with
      | some cp =>
          if cp ≠ 0 ∧ lockedLevels ≠ [] then check_level_interactions cp lockedLevels
          else []
      | none => [] }

/-- Modelled from the spec (§4.1 BOS detection), for comparison with
`detect_bos`: a bullish BOS fires when a swing-high's price exceeds the
price of the *nearest prior swing of the same type*, a bearish BOS
symmetrically for swing lows.  `prior` holds the already-seen swings,
most recent first. -/
def bosSpecAux (tf : String) : List Swing → List Swing → List BosSignal
  | _, [] => []
  | prior, curr :: rest =>
      (match prior.find? (fun s => s.type = curr.type) with
       | some p =>
           if curr.type = SwingType.high ∧ curr.price > p.price then [bosBull tf p curr]
           else if curr.type = SwingType.low ∧ curr.price < p.price then [bosBear tf p curr]
           else []
       | none => []) ++ bosSpecAux tf (curr :: prior) rest

/-- Modelled from the spec: BOS signals under the nearest-prior-same-type
reading of §4.1. -/
def bosSpecSignals (tf : String) (swings : List Swing) : List BosSignal :=
  bosSpecAux tf [] swings

/- ---------------------------------------------------------------------
chart_analyzer.py — chart observation client.
--------------------------------------------------------------------- -/

/-- One fetched chart: `{"timeframe": tf, "base64": image}`. -/
structure ChartImage where
  timeframe : String
  base64 : String
deriving DecidableEq

/-- The single Vision invocation built by `analyze_charts_with_gpt_vision`:
the fixed visual-analysis prompt followed by one label + one image per
fetched timeframe (in fetch order). -/
structure VisionRequest where
  prompt : String
  charts : List ChartImage
deriving DecidableEq

/-- chart_analyzer.py `CHART_ANALYSIS_PROMPT` (fixed instruction text;
its wording is not load-bearing for any claim, so it is abbreviated). -/
def CHART_ANALYSIS_PROMPT : String :=
  "You are a professional chart analyst performing pure visual technical analysis on TradingView chart images. [...] Return ONLY the JSON object. No markdown, no extra text outside the JSON."

/-- chart_analyzer.py `format_symbol_for_chart`. -/
def format_symbol_for_chart (symbol : String) (assetType : String) : String :=
  if symbol.contains ':' then symbol
  else if assetType = "forex" then "FX:" ++ symbol
  else if assetType = "crypto" then "BINANCE:" ++ symbol
  else if assetType = "stock" then "NASDAQ:" ++ symbol
  else symbol

/-- chart_analyzer.py `_parse_chart_response`: same extraction and decode
attempt as the brain parser; on `JSONDecodeError` it returns the raw
response text under every timeframe key of `chart_images`, then sets the
`_parse_error` marker (the exception's text, modelled by a fixed
string). -/
def parse_chart_response (jsonLoads : List Char → Option JValue)
    (responseText : List Char) (chartImages : List ChartImage) : JValue :=
  match jsonAttempt jsonLoads responseText with
  | some parsed => parsed
  | none =>
      .obj (alSet
        (chartImages.map (fun img => (img.timeframe, JValue.str (String.mk responseText))))
        "_parse_error" (.str "JSONDecodeError"))

/-- The value returned by `analyze_charts_with_gpt_vision` on success. -/
structure ChartAnalysisResult where
  chart_analysis : JValue
  metadata_symbol : String
  timeframes_analyzed : List String
  timeframes_requested : List String

/-- The `chart_images` list assembled by the fetch loop: one entry per
requested timeframe whose `get_chart_image_base64` call succeeded
(that helper catches its own exceptions and returns `None` on failure). -/
def fetchedCharts (fetchChart : String → Option String) (timeframes : List String) :
    List ChartImage :=
  timeframes.filterMap (fun tf => (fetchChart tf).map (fun b => ⟨tf, b⟩))

/-- chart_analyzer.py `analyze_charts_with_gpt_vision`.  Collaborators:
`fetchChart` is `get_chart_image_base64` (total, `none` on failure),
`callVision` is the OpenAI chat-completions call (`.error` = raised
exception, re-raised by the source's bare `raise`).  `.error` models a
raised exception (`ValueError` when no client or no image could be
fetched). -/
def analyze_charts_with_gpt_vision
    (clientPresent : Bool)
    (fetchChart : String → Option String)
    (callVision : VisionRequest → Except String (List Char))
    (jsonLoads : List Char → Option JValue)
    (symbol : String) (timeframes : List String)
    : Except String ChartAnalysisResult :=
  if clientPresent = false then
    .error "OPENAI_API_KEY not set -- cannot run analysis"
  else
    let formattedSymbol := format_symbol_for_chart symbol "forex"
    let chartImages := fetchedCharts fetchChart timeframes
    if chartImages = [] then
      .error ("Could not fetch any chart images for " ++ formattedSymbol ++
              ". Check CHART_IMG_API_KEY and chart-img.com status.")
    else
      match callVision ⟨CHART_ANALYSIS_PROMPT, chartImages⟩ with
      | .error e => .error e
      | .ok responseText =>
          let observations := parse_chart_response jsonLoads responseText chartImages
          .ok { chart_analysis := observations,
                metadata_symbol := formattedSymbol,
                timeframes_analyzed := chartImages.map (·.timeframe),
                timeframes_requested := timeframes }

/- ---------------------------------------------------------------------
database.py — `save_setup_state` / `get_active_setup` on the
`active_setups` table.
--------------------------------------------------------------------- -/

/-- One row of `active_setups`. -/
structure SetupRow where
  setup_id : String
  symbol : String
  session : Option String
  phase : String
  state_data : List (String × JValue)
  created_at : ℤ
  updated_at : ℤ
  completed_at : Option ℤ

/-- The `active_setups` table (`setup_id` is the primary key; the
embedded operations never rely on uniqueness). -/
abbrev SetupTable := List SetupRow

/-- Extraction `state.get("phase", "WATCHING")`.  The source stores whatever value
the dict holds into a VARCHAR column; only string phases are modelled
(non-string values would fail at the driver, outside this embedding). -/
def pyGetPhase (state : List (String × JValue)) : String :=
  match alGet state "phase" with
  | some (JValue.str p) => p
  | _ => "WATCHING"

/-- The `ON CONFLICT … DO UPDATE` clause: `phase`, `state_data` and
`updated_at` are replaced; `symbol`, `session`, `created_at` and
`completed_at` are left untouched. -/
def upsertRow (row : SetupRow) (phase : String) (state : List (String × JValue))
    (now : ℤ) : SetupRow :=
  { row with phase := phase, state_data := state, updated_at := now }

/-- database.py `save_setup_state` (success path; the surrounding
try/except only converts DB errors into a `False` return): upsert the
row keyed by `setup_id`, then, when the written phase is `STAND_DOWN`,
set `completed_at = CURRENT_TIMESTAMP` on every row with that id. -/
def save_setup_state (symbol setupId : String) (state : List (String × JValue))
    (session : Option String) (now : ℤ) (table : SetupTable) : SetupTable :=
  let phase := pyGetPhase state
  let upserted :=
    if table.any (fun r => r.setup_id = setupId) then
      table.map (fun r => if r.setup_id = setupId then upsertRow r phase state now else r)
    else
      table ++ [{ setup_id := setupId, symbol := symbol, session := session,
                  phase := phase, state_data := state, created_at := now,
                  updated_at := now, completed_at := none }]
  if phase = "STAND_DOWN" then
    upserted.map (fun r =>
      if r.setup_id = setupId then { r with completed_at := some now } else r)
  else upserted

/-- database.py `get_active_setup` with an explicit `setup_id`:
`WHERE setup_id = %s AND completed_at IS NULL`. -/
def get_active_setup_by_id (table : SetupTable) (setupId : String) : Option SetupRow :=
  table.find? (fun r => decide (r.setup_id = setupId ∧ r.completed_at = none))

/-- database.py `get_active_setup` without a `setup_id`:
`WHERE symbol = %s AND completed_at IS NULL ORDER BY created_at DESC
LIMIT 1` — among the non-completed rows for the symbol, one with
maximal `created_at` is returned. -/
def get_active_setup_by_symbol (table : SetupTable) (symbol : String) : Option SetupRow :=
  (table.filter (fun r => decide (r.symbol = symbol ∧ r.completed_at = none))).foldl
    (fun acc r =>
      match acc with
      | none => some r
      | some b => if r.created_at > b.created_at then some r else some b)
    none

/-- One later `save_setup_state` call with arbitrary arguments. -/
structure SaveOp where
  symbol : String
  setupId : String
  state : List (String × JValue)
  session : Option String
  now : ℤ

def applySaves (ops : List SaveOp) (table : SetupTable) : SetupTable :=
  ops.foldl (fun t op => save_setup_state op.symbol op.setupId op.state op.session op.now t) table

/-- Sticky-completion invariant for a setup id: a row for it exists and
every row for it carries a non-null `completed_at`. -/
def stickyCompleted (table : SetupTable) (id : String) : Prop :=
  (∃ r ∈ table, r.setup_id = id) ∧
  (∀ r ∈ table, r.setup_id = id → r.completed_at ≠ none)

/- ---------------------------------------------------------------------
Concrete fixtures for closed instances.
--------------------------------------------------------------------- -/

/-- Unparsable reasoning-service prose (no braces, not JSON). -/
def unparsableText : List Char := "hello".data

/-- A decoded response proposing ENTER with an incomplete order_intent
(missing price, stop_loss, take_profit and risk_pct). -/
def enterText : List Char :=
  "\x7b\"action\":\"ENTER\",\"order_intent\":\x7b\"type\":\"BUY\"\x7d\x7d".data

/-- The JSON value `enterText` decodes to. -/
def enterDecision : JValue :=
  .obj [("action", .str "ENTER"), ("order_intent", .obj [("type", .str "BUY")])]

/-- The three ascending candles of spec scenario 1
(`h/l` = 1.10/1.08, 1.12/1.11, 1.14/1.13). -/
def scenarioCandles : List Candle :=
  [ { time := 0, open_ := 1.08, high := 1.10, low := 1.08, close := 1.10 },
    { time := 1, open_ := 1.11, high := 1.12, low := 1.11, close := 1.12 },
    { time := 2, open_ := 1.13, high := 1.14, low := 1.13, close := 1.14 } ]

/-- A `sod_action`-shaped `ohlc_data` input: the caller-defined keys the
SOD endpoint builds (`api_server.trading_sod`), each holding a series
containing a clear bullish FVG.  Integer-valued prices so closed
instances evaluate by `decide`: `h/l` = 1/0, 3/2, 5/4. -/
def fvgCandles : List Candle :=
  [ { time := 0, open_ := 0, high := 1, low := 0, close := 1 },
    { time := 1, open_ := 2, high := 3, low := 2, close := 3 },
    { time := 2, open_ := 4, high := 5, low := 4, close := 5 } ]

def sodOhlc : OhlcInput :=
  { series := [("1h_DATA", fvgCandles), ("4h_DATA", fvgCandles),
               ("1D_DATA", fvgCandles), ("1W_DATA", fvgCandles)],
    current_price := none }

/-- Six candles whose ordered swing sequence is
`[high 100 @1, low 50 @2, high 120 @4]`: the nearest prior same-type
swing of the `120` high is the `100` high, but the immediately preceding
swing is the `50` low. -/
def candlesC5 : List Candle :=
  [ { time := 0, open_ := 60, high := 80,  low := 60, close := 80 },
    { time := 1, open_ := 70, high := 100, low := 70, close := 100 },
    { time := 2, open_ := 50, high := 90,  low := 50, close := 90 },
    { time := 3, open_ := 60, high := 95,  low := 60, close := 95 },
    { time := 4, open_ := 70, high := 120, low := 70, close := 120 },
    { time := 5, open_ := 80, high := 110, low := 80, close := 110 } ]

/-- Five candles whose swing sequence is two consecutive highs
`[high 10 @1, high 12 @3]` (lows are flat, so no swing lows). -/
def candlesW5 : List Candle :=
  [ { time := 0, open_ := 0, high := 1,  low := 0, close := 1 },
    { time := 1, open_ := 0, high := 10, low := 0, close := 10 },
    { time := 2, open_ := 0, high := 2,  low := 0, close := 2 },
    { time := 3, open_ := 0, high := 12, low := 0, close := 12 },
    { time := 4, open_ := 0, high := 3,  low := 0, close := 3 } ]

/-- A cached market-data note created at t = 0. -/
def sampleNote : CachedNote :=
  { data := .str "cached market data", createdAt := .readable 0 }

/-- A partially failing chart fetcher: H1 succeeds, everything else fails. -/
def fetchH1Only : String → Option String :=
  fun tf => if tf = "H1" then some "img-h1" else none

/-- A chart fetcher for which every render fails. -/
def fetchNothing : String → Option String := fun _ => none

/-- A vision collaborator returning a fixed parsable response. -/
def visionOk : VisionRequest → Except String (List Char) :=
  fun _ => .ok "\x7b\"H1\":\"clean uptrend\"\x7d".data

/-- Chart images included in a vision request whose response turns out
unparsable. -/
def chartImages9 : List ChartImage :=
  [ { timeframe := "H1", base64 := "img-1" }, { timeframe := "H4", base64 := "img-2" } ]

def unparsableChartText : List Char := "I could not produce JSON, sorry about that".data

/-- A state dict carrying the terminal phase. -/
def standDownState : List (String × JValue) := [("phase", JValue.str "STAND_DOWN")]

/-- A state dict carrying a non-terminal phase. -/
def watchingState : List (String × JValue) := [("phase", JValue.str "WATCHING")]

/- =====================================================================
Theorems
===================================================================== -/

/-- C1 (counterexample).  The claim says that on any decode failure the
decision parser returns a fallback Decision with `action = WAIT` and a
short retry time.  At the concrete unparsable input `"hello"` the decode
attempt fails, yet `_parse_gpt_response`'s fallback dict carries no
`action` key at all (hence no `WAIT`) and no `next_run_at_utc` key
(hence no retry time). -/
theorem C1_decode_failure_counterexample :
    jsonAttempt jsonParse unparsableText = none ∧
    (parse_gpt_response jsonParse unparsableText).get? "action" = none ∧
    (parse_gpt_response jsonParse unparsableText).get? "next_run_at_utc" = none :=
  ⟨rfl, rfl, rfl⟩

/-- C1 (amended).  For every reasoning-service response whose content
cannot be JSON-decoded (after fence stripping and outermost-brace
extraction), `_parse_gpt_response` returns — without letting the decode
exception propagate — the fallback dict
`{"error": "Failed to parse AI response", "raw_response": text[:500]}`,
which carries a parse-error marker but neither an `action` field nor a
retry time. -/
theorem C1_decode_failure_fallback (jsonLoads : List Char → Option JValue)
    (text : List Char) (h : jsonAttempt jsonLoads text = none) :
    parse_gpt_response jsonLoads text =
      .obj [("error", .str "Failed to parse AI response"),
            ("raw_response", .str (String.mk (pySlice text 0 500)))] ∧
    (parse_gpt_response jsonLoads text).get? "error" =
      some (.str "Failed to parse AI response") ∧
    (parse_gpt_response jsonLoads text).get? "action" = none ∧
    (parse_gpt_response jsonLoads text).get? "next_run_at_utc" = none := by
  unfold parse_gpt_response
  rw [h]
  exact ⟨rfl, rfl, rfl, rfl⟩

/-- C1 (witness): the amended fallback behaviour at the concrete
unparsable input. -/
theorem C1_decode_failure_fallback_witness :
    jsonAttempt jsonParse unparsableText = none ∧
    (parse_gpt_response jsonParse unparsableText =
      .obj [("error", .str "Failed to parse AI response"),
            ("raw_response", .str (String.mk (pySlice unparsableText 0 500)))] ∧
     (parse_gpt_response jsonParse unparsableText).get? "error" =
       some (.str "Failed to parse AI response") ∧
     (parse_gpt_response jsonParse unparsableText).get? "action" = none ∧
     (parse_gpt_response jsonParse unparsableText).get? "next_run_at_utc" = none) :=
  ⟨rfl, C1_decode_failure_fallback jsonParse unparsableText rfl⟩

/-- C2 (counterexample).  The claim says an uncaught exception inside
`sod_action` / `intraday_action` yields `{action: ERROR, error,
next_run_at_utc: now+1min}`.  At a concrete raised exception ("boom")
both workflows return their error dict, which has no `action` key
(hence not `ERROR`) and no `next_run_at_utc` key (hence no now+1min
schedule). -/
theorem C2_workflow_error_counterexample :
    (sod_action_decision jsonParse "GBPUSD" "2026-10-12T07:00:00+00:00"
        ["1h_DATA", "4h_DATA", "1D_DATA", "1W_DATA"] false
        (.error "boom")).get? "action" = none ∧
    (sod_action_decision jsonParse "GBPUSD" "2026-10-12T07:00:00+00:00"
        ["1h_DATA", "4h_DATA", "1D_DATA", "1W_DATA"] false
        (.error "boom")).get? "next_run_at_utc" = none ∧
    (intraday_action_decision jsonParse "GBPUSD" "2026-10-12T09:30:00+00:00"
        ["H1_DATA"] false false false (.error "boom")).get? "action" = none ∧
    (intraday_action_decision jsonParse "GBPUSD" "2026-10-12T09:30:00+00:00"
        ["H1_DATA"] false false false (.error "boom")).get? "next_run_at_utc" = none :=
  ⟨rfl, rfl, rfl, rfl⟩

/-- C2 (amended).  For both workflows, an exception `e` raised in the
decision step is converted — instead of propagating — into the dict
`{"error": "Failed to complete SOD/intraday analysis: " + e,
"symbol": …, "analysis_timestamp": …}`; this dict carries the error
message but neither an `action` field (so not `action = ERROR`) nor a
`next_run_at_utc` field (so no now+1min schedule). -/
theorem C2_workflow_error_dict (jsonLoads : List Char → Option JValue)
    (symbol nowIso : String) (ohlcKeys timeframes : List String)
    (prevUsed sodUsed lastUsed fromCache : Bool) (e : String) :
    sod_action_decision jsonLoads symbol nowIso ohlcKeys prevUsed (.error e) =
      sodErrorDict symbol nowIso e ∧
    (sod_action_decision jsonLoads symbol nowIso ohlcKeys prevUsed (.error e)).get?
      "error" = some (.str ("Failed to complete SOD analysis: " ++ e)) ∧
    (sod_action_decision jsonLoads symbol nowIso ohlcKeys prevUsed (.error e)).get?
      "action" = none ∧
    (sod_action_decision jsonLoads symbol nowIso ohlcKeys prevUsed (.error e)).get?
      "next_run_at_utc" = none ∧
    intraday_action_decision jsonLoads symbol nowIso timeframes sodUsed lastUsed
      fromCache (.error e) = intradayErrorDict symbol nowIso e ∧
    (intraday_action_decision jsonLoads symbol nowIso timeframes sodUsed lastUsed
      fromCache (.error e)).get? "error" =
        some (.str ("Failed to complete intraday analysis: " ++ e)) ∧
    (intraday_action_decision jsonLoads symbol nowIso timeframes sodUsed lastUsed
      fromCache (.error e)).get? "action" = none ∧
    (intraday_action_decision jsonLoads symbol nowIso timeframes sodUsed lastUsed
      fromCache (.error e)).get? "next_run_at_utc" = none :=
  ⟨rfl, rfl, rfl, rfl, rfl, rfl, rfl, rfl⟩

/-- C3 (counterexample).  The claim says a Decision whose `order_intent`
is present but misses any of {type, price, stop_loss, take_profit,
risk_pct} is forced to `action = WAIT` with `order_intent = null`.  At
the concrete response proposing ENTER with an order_intent carrying only
`type`, the pipeline's parser returns the decision unchanged: the action
stays `"ENTER"` (not `"WAIT"`) and `order_intent` stays the incomplete
object (not null). -/
theorem C3_order_intent_counterexample :
    parse_gpt_response jsonParse enterText = enterDecision ∧
    (parse_gpt_response jsonParse enterText).get? "action" = some (.str "ENTER") ∧
    (parse_gpt_response jsonParse enterText).get? "order_intent" =
      some (.obj [("type", .str "BUY")]) ∧
    (JValue.obj [("type", JValue.str "BUY")]).get? "price" = none ∧
    (JValue.obj [("type", JValue.str "BUY")]).get? "stop_loss" = none ∧
    (JValue.obj [("type", JValue.str "BUY")]).get? "take_profit" = none ∧
    (JValue.obj [("type", JValue.str "BUY")]).get? "risk_pct" = none :=
  ⟨rfl, rfl, rfl, rfl, rfl, rfl, rfl⟩

/-- C3 (amended).  The decision pipeline performs no `order_intent`
validation at all: whenever the response decodes, `_parse_gpt_response`
returns the decoded value unchanged, keeping the originally proposed
action and the (possibly incomplete) order_intent. -/
theorem C3_parser_returns_decoded_unchanged
    (jsonLoads : List Char → Option JValue) (text : List Char) (v : JValue)
    (h : jsonAttempt jsonLoads text = some v) :
    parse_gpt_response jsonLoads text = v := by
  unfold parse_gpt_response
  rw [h]

/-- C3 (witness): the unchanged-decision behaviour at the concrete
incomplete-ENTER response. -/
theorem C3_parser_returns_decoded_unchanged_witness :
    jsonAttempt jsonParse enterText = some enterDecision ∧
    parse_gpt_response jsonParse enterText = enterDecision :=
  ⟨rfl, C3_parser_returns_decoded_unchanged jsonParse enterText enterDecision rfl⟩

/-- C7 (confirmed).  `_get_market_data_cached`: a cached note with a
readable creation timestamp strictly younger than 4 hours is returned
unchanged (no refetch, store untouched — the result does not depend on
`freshData` at all); a note that is 4 hours old or older, has an
unreadable or missing timestamp, or is absent, triggers a fetch whose
result is saved over the same slot (overwrite semantics, fresh
timestamp) and returned.  In particular a note aged 3h59m (14340 s) is
reused and one aged 4h01m (14460 s) is refetched and resaved. -/
theorem C7_market_data_cache :
    (∀ (now t : ℤ) (note : CachedNote) (freshData : JValue),
      note.createdAt = .readable t → now - t < MARKET_DATA_CACHE_SECONDS →
      get_market_data_cached now (some note) freshData = (note.data, some note)) ∧
    (∀ (now t : ℤ) (note : CachedNote) (freshData : JValue),
      note.createdAt = .readable t → MARKET_DATA_CACHE_SECONDS ≤ now - t →
      get_market_data_cached now (some note) freshData =
        (freshData, some { data := freshData, createdAt := .readable now })) ∧
    (∀ (now : ℤ) (note : CachedNote) (freshData : JValue),
      note.createdAt = .missing →
      get_market_data_cached now (some note) freshData =
        (freshData, some { data := freshData, createdAt := .readable now })) ∧
    (∀ (now : ℤ) (note : CachedNote) (freshData : JValue),
      note.createdAt = .unreadable →
      get_market_data_cached now (some note) freshData =
        (freshData, some { data := freshData, createdAt := .readable now })) ∧
    (∀ (now : ℤ) (freshData : JValue),
      get_market_data_cached now none freshData =
        (freshData, some { data := freshData, createdAt := .readable now })) ∧
    get_market_data_cached 14340 (some sampleNote) (.str "fresh") =
      (.str "cached market data", some sampleNote) ∧
    get_market_data_cached 14460 (some sampleNote) (.str "fresh") =
      (.str "fresh", some { data := .str "fresh", createdAt := .readable 14460 }) := by
  refine ⟨?_, ?_, ?_, ?_, ?_, ?_, ?_⟩
  · intro now t note freshData hts hage
    simp [get_market_data_cached, hts, hage]
  · intro now t note freshData hts hage
    simp [get_market_data_cached, hts, not_lt.mpr hage]
  · intro now note freshData hts
    simp [get_market_data_cached, hts]
  · intro now note freshData hts
    simp [get_market_data_cached, hts]
  · intro now freshData
    simp [get_market_data_cached]
  · simp [get_market_data_cached, sampleNote, MARKET_DATA_CACHE_SECONDS]
  · simp [get_market_data_cached, sampleNote, MARKET_DATA_CACHE_SECONDS]

/-- C7 (witness): the fresh-cache clause applied at a 3h59m-old note. -/
theorem C7_market_data_cache_witness :
    sampleNote.createdAt = .readable 0 ∧
    (14340 : ℤ) - 0 < MARKET_DATA_CACHE_SECONDS ∧
    get_market_data_cached 14340 (some sampleNote) (.str "fresh") =
      (sampleNote.data, some sampleNote) :=
  ⟨rfl, by norm_num [MARKET_DATA_CACHE_SECONDS],
   C7_market_data_cache.1 14340 0 sampleNote (.str "fresh") rfl
     (by norm_num [MARKET_DATA_CACHE_SECONDS])⟩

/- Helper lemmas: membership characterisation of the window scans. -/

theorem windowTriples_mem_cons {α β : Type} (g : α → α → α → List β) (y : β)
    (x : α) {w : List α} (h : y ∈ windowTriples g w) :
    y ∈ windowTriples g (x :: w) := by
  match w with
  | [] => simp [windowTriples] at h
  | [a] => simp [windowTriples] at h
  | [a, b] => simp [windowTriples] at h
  | a :: b :: c :: rest => exact List.mem_append_right _ h

theorem windowTriples_mem_fwd {α β : Type} (g : α → α → α → List β) (y : β) :
    ∀ xs : List α, y ∈ windowTriples g xs →
      ∃ l₁ a b c l₂, xs = l₁ ++ a :: b :: c :: l₂ ∧ y ∈ g a b c := by
  intro xs
  induction xs with
  | nil => intro h; simp [windowTriples] at h
  | cons x t ih =>
      intro h
      rcases t with _ | ⟨b, t2⟩
      · simp [windowTriples] at h
      rcases t2 with _ | ⟨c, rest⟩
      · simp [windowTriples] at h
      rw [show windowTriples g (x :: b :: c :: rest) =
            g x b c ++ windowTriples g (b :: c :: rest) from rfl,
          List.mem_append] at h
      rcases h with h1 | h2
      · exact ⟨[], x, b, c, rest, rfl, h1⟩
      · rcases ih h2 with ⟨l₁, a', b', c', l₂, heq, hy⟩
        exact ⟨x :: l₁, a', b', c', l₂, by rw [heq, List.cons_append], hy⟩

theorem windowTriples_mem_bwd {α β : Type} (g : α → α → α → List β) (y : β) :
    ∀ (l₁ : List α) (a b c : α) (l₂ : List α), y ∈ g a b c →
      y ∈ windowTriples g (l₁ ++ a :: b :: c :: l₂) := by
  intro l₁
  induction l₁ with
  | nil =>
      intro a b c l₂ hy
      rw [List.nil_append]
      exact List.mem_append_left _ hy
  | cons x l ih =>
      intro a b c l₂ hy
      rw [List.cons_append]
      exact windowTriples_mem_cons g y x (ih a b c l₂ hy)

theorem windowTriples_mem {α β : Type} (g : α → α → α → List β) (y : β)
    (xs : List α) :
    y ∈ windowTriples g xs ↔
      ∃ l₁ a b c l₂, xs = l₁ ++ a :: b :: c :: l₂ ∧ y ∈ g a b c := by
  constructor
  · exact windowTriples_mem_fwd g y xs
  · rintro ⟨l₁, a, b, c, l₂, rfl, hy⟩
    exact windowTriples_mem_bwd g y l₁ a b c l₂ hy

theorem windowPairs_mem_cons {α β : Type} (g : α → α → List β) (y : β)
    (x : α) {w : List α} (h : y ∈ windowPairs g w) :
    y ∈ windowPairs g (x :: w) := by
  match w with
  | [] => simp [windowPairs] at h
  | a :: rest => exact List.mem_append_right _ h

theorem windowPairs_mem_fwd {α β : Type} (g : α → α → List β) (y : β) :
    ∀ xs : List α, y ∈ windowPairs g xs →
      ∃ l₁ p c l₂, xs = l₁ ++ p :: c :: l₂ ∧ y ∈ g p c := by
  intro xs
  induction xs with
  | nil => intro h; simp [windowPairs] at h
  | cons x t ih =>
      intro h
      rcases t with _ | ⟨c, rest⟩
      · simp [windowPairs] at h
      rw [show windowPairs g (x :: c :: rest) =
            g x c ++ windowPairs g (c :: rest) from rfl,
          List.mem_append] at h
      rcases h with h1 | h2
      · exact ⟨[], x, c, rest, rfl, h1⟩
      · rcases ih h2 with ⟨l₁, p', c', l₂, heq, hy⟩
        exact ⟨x :: l₁, p', c', l₂, by rw [heq, List.cons_append], hy⟩

theorem windowPairs_mem_bwd {α β : Type} (g : α → α → List β) (y : β) :
    ∀ (l₁ : List α) (p c : α) (l₂ : List α), y ∈ g p c →
      y ∈ windowPairs g (l₁ ++ p :: c :: l₂) := by
  intro l₁
  induction l₁ with
  | nil =>
      intro p c l₂ hy
      rw [List.nil_append]
      exact List.mem_append_left _ hy
  | cons x l ih =>
      intro p c l₂ hy
      rw [List.cons_append]
      exact windowPairs_mem_cons g y x (ih p c l₂ hy)

theorem windowPairs_mem {α β : Type} (g : α → α → List β) (y : β) (xs : List α) :
    y ∈ windowPairs g xs ↔
      ∃ l₁ p c l₂, xs = l₁ ++ p :: c :: l₂ ∧ y ∈ g p c := by
  constructor
  · exact windowPairs_mem_fwd g y xs
  · rintro ⟨l₁, p, c, l₂, rfl, hy⟩
    exact windowPairs_mem_bwd g y l₁ p c l₂ hy

/-- Membership in `fvgCheck`, for candles with `low ≤ high`: the `elif`
cannot shadow the bearish case, so detection is an exact iff. -/
theorem fvgCheck_mem (tf : String) (a b c : Candle) (f : Fvg)
    (hwa : a.low ≤ a.high) (hwc : c.low ≤ c.high) :
    f ∈ fvgCheck tf a b c ↔
      ((a.high < c.low ∧ f = fvgBull tf a b c) ∨
       (c.high < a.low ∧ f = fvgBear tf a b c)) := by
  unfold fvgCheck
  split_ifs with h1 h2
  · constructor
    · intro hf
      exact Or.inl ⟨h1, List.mem_singleton.mp hf⟩
    · rintro (⟨-, rfl⟩ | ⟨hcl, -⟩)
      · exact List.mem_singleton.mpr rfl
      · exact absurd h1 (by linarith)
  · constructor
    · intro hf
      exact Or.inr ⟨h2, List.mem_singleton.mp hf⟩
    · rintro (⟨hh, -⟩ | ⟨-, rfl⟩)
      · exact absurd hh h1
      · exact List.mem_singleton.mpr rfl
  · constructor
    · intro hf
      simp at hf
    · rintro (⟨hh, -⟩ | ⟨hcl, -⟩)
      · exact absurd hh h1
      · exact absurd hcl h2

/-- Membership in `bosCheck`: a signal arises from a consecutive swing pair
exactly when both swings have the same type, the earlier one has a
nonzero price, and the later one breaks it. -/
theorem bosCheck_mem (tf : String) (prev curr : Swing) (sig : BosSignal) :
    sig ∈ bosCheck tf prev curr ↔
      ((prev.type = .high ∧ curr.type = .high ∧ prev.price ≠ 0 ∧
        prev.price < curr.price ∧ sig = bosBull tf prev curr) ∨
       (prev.type = .low ∧ curr.type = .low ∧ prev.price ≠ 0 ∧
        curr.price < prev.price ∧ sig = bosBear tf prev curr)) := by
  unfold bosCheck
  split_ifs with h1 h2 h3 h4
  · obtain ⟨hc, hp, hz⟩ := h1
    constructor
    · intro hf
      exact Or.inl ⟨hp, hc, hz, h2, List.mem_singleton.mp hf⟩
    · rintro (⟨-, -, -, -, rfl⟩ | ⟨-, hcl, -, -, -⟩)
      · exact List.mem_singleton.mpr rfl
      · rw [hc] at hcl; exact absurd hcl (by simp)
  · obtain ⟨hc, hp, hz⟩ := h1
    constructor
    · intro hf
      simp at hf
    · rintro (⟨-, -, -, hlt, -⟩ | ⟨-, hcl, -, -, -⟩)
      · exact absurd hlt h2
      · rw [hc] at hcl; exact absurd hcl (by simp)
  · obtain ⟨hc, hp, hz⟩ := h3
    constructor
    · intro hf
      exact Or.inr ⟨hp, hc, hz, h4, List.mem_singleton.mp hf⟩
    · rintro (⟨-, hch, -, -, -⟩ | ⟨-, -, -, -, rfl⟩)
      · rw [hc] at hch; exact absurd hch (by simp)
      · exact List.mem_singleton.mpr rfl
  · obtain ⟨hc, hp, hz⟩ := h3
    constructor
    · intro hf
      simp at hf
    · rintro (⟨-, hch, -, -, -⟩ | ⟨-, -, -, hlt, -⟩)
      · rw [hc] at hch; exact absurd hch (by simp)
      · exact absurd hlt h4
  · constructor
    · intro hf
      simp at hf
    · rintro (⟨hp, hc, hz, -, -⟩ | ⟨hp, hc, hz, -, -⟩)
      · exact absurd ⟨hc, hp, hz⟩ h1
      · exact absurd ⟨hc, hp, hz⟩ h3

/-- C6 (confirmed).  `_detect_fvgs`: a series with fewer than 3 candles
yields nothing; for well-formed candles (`low ≤ high`) an FVG is
detected exactly for the 3-candle windows with a strict gap — bullish
with zone `[prev.high, next.low]` (`bottom`/`top`) tagged `curr.time`
when `prev.high < next.low`, bearish with zone `[next.high, prev.low]`
when `prev.low > next.high`; equal-touching highs/lows are never
flagged (strict inequalities); and the three ascending scenario candles
yield exactly the bullish FVG with zone `[1.10, 1.13]`. -/
theorem C6_fvg_characterisation :
    (∀ (candles : List Candle) (tf : String), candles.length < 3 →
      detect_fvgs candles tf = []) ∧
    (∀ (candles : List Candle) (tf : String) (f : Fvg),
      (∀ c ∈ candles, c.low ≤ c.high) →
      (f ∈ detect_fvgs candles tf ↔
        ∃ l₁ a b c l₂, candles = l₁ ++ a :: b :: c :: l₂ ∧
          ((a.high < c.low ∧ f = fvgBull tf a b c) ∨
           (c.high < a.low ∧ f = fvgBear tf a b c)))) ∧
    detect_fvgs scenarioCandles "H1" =
      [{ type := "bullish", timeframe := "H1", top := 1.13, bottom := 1.10,
         timestamp := 1, filled := false }] := by
  refine ⟨?_, ?_, ?_⟩
  · intro candles tf h
    simp [detect_fvgs, h]
  · intro candles tf f hwf
    by_cases hlen : candles.length < 3
    · rw [detect_fvgs, if_pos hlen]
      simp only [List.not_mem_nil, false_iff, not_exists]
      intro l₁ a b c l₂ hcontra
      rw [hcontra.1] at hlen
      simp [List.length_append] at hlen
      omega
    · rw [detect_fvgs, if_neg hlen, windowTriples_mem]
      constructor
      · rintro ⟨l₁, a, b, c, l₂, rfl, hf⟩
        have hwa : a.low ≤ a.high := hwf a (by simp)
        have hwc : c.low ≤ c.high := hwf c (by simp)
        exact ⟨l₁, a, b, c, l₂, rfl, (fvgCheck_mem tf a b c f hwa hwc).mp hf⟩
      · rintro ⟨l₁, a, b, c, l₂, rfl, hf⟩
        have hwa : a.low ≤ a.high := hwf a (by simp)
        have hwc : c.low ≤ c.high := hwf c (by simp)
        exact ⟨l₁, a, b, c, l₂, rfl, (fvgCheck_mem tf a b c f hwa hwc).mpr hf⟩
  · norm_num [detect_fvgs, scenarioCandles, windowTriples, fvgCheck, fvgBull]

/-- C6 (witness): the length guard and the window characterisation
applied at the concrete scenario candles. -/
theorem C6_fvg_characterisation_witness :
    ((scenarioCandles.take 2).length < 3 ∧
      detect_fvgs (scenarioCandles.take 2) "H1" = []) ∧
    ((∀ c ∈ scenarioCandles, c.low ≤ c.high) ∧
      { type := "bullish", timeframe := "H1", top := 1.13, bottom := 1.10,
        timestamp := 1, filled := false } ∈ detect_fvgs scenarioCandles "H1") := by
  have hwf : ∀ c ∈ scenarioCandles, c.low ≤ c.high := by
    intro c hc
    simp only [scenarioCandles, List.mem_cons, List.not_mem_nil, or_false] at hc
    rcases hc with rfl | rfl | rfl <;> norm_num
  have hlen : (scenarioCandles.take 2).length < 3 := by
    simp [scenarioCandles]
  refine ⟨⟨hlen, C6_fvg_characterisation.1 (scenarioCandles.take 2) "H1" hlen⟩,
          hwf, ?_⟩
  refine (C6_fvg_characterisation.2.1 scenarioCandles "H1" _ hwf).mpr ?_
  refine ⟨[], { time := 0, open_ := 1.08, high := 1.10, low := 1.08, close := 1.10 },
          { time := 1, open_ := 1.11, high := 1.12, low := 1.11, close := 1.12 },
          { time := 2, open_ := 1.13, high := 1.14, low := 1.13, close := 1.14 },
          [], rfl, Or.inl ⟨by norm_num, ?_⟩⟩
  simp [fvgBull]

/-- C5 (counterexample).  The claim says a bullish BOS is reported
exactly when a swing-high exceeds the nearest prior swing of the same
type.  On `candlesC5` the ordered swing sequence is
`[high 100, low 50, high 120]`; under the nearest-prior-same-type
reading (the spec-modelled `bosSpecSignals`) the `120` high breaks the
`100` high and a bullish BOS is due, but the source compares each swing
only against the immediately preceding swing — here the `50` low — and
reports nothing. -/
theorem C5_nearest_prior_counterexample :
    find_swings candlesC5 =
      [ { type := .high, price := 100, time := 1 },
        { type := .low,  price := 50,  time := 2 },
        { type := .high, price := 120, time := 4 } ] ∧
    bosSpecSignals "H1" (find_swings candlesC5) =
      [ { type := "bullish", timeframe := "H1", price := 120, timestamp := 4,
          previous_swing := 100 } ] ∧
    detect_bos candlesC5 "H1" = [] := by
  refine ⟨by decide, by decide, by decide⟩

/-- C5 (amended).  `_detect_bos` reports a signal exactly for
*consecutive* pairs in the detected swing sequence (of a series with at
least 5 candles) in which both swings have the same type, the earlier
one has a nonzero price (Python truthiness), and the later one breaks
it — bullish for swing-high pairs, bearish for swing-low pairs.  The
comparison is against the immediately preceding swing only (and only
when it has the same type), not against the nearest prior same-type
swing. -/
theorem C5_bos_adjacent_same_type :
    ∀ (candles : List Candle) (tf : String) (sig : BosSignal),
      sig ∈ detect_bos candles tf ↔
        5 ≤ candles.length ∧
        ∃ l₁ prev curr l₂, find_swings candles = l₁ ++ prev :: curr :: l₂ ∧
          ((prev.type = .high ∧ curr.type = .high ∧ prev.price ≠ 0 ∧
            prev.price < curr.price ∧ sig = bosBull tf prev curr) ∨
           (prev.type = .low ∧ curr.type = .low ∧ prev.price ≠ 0 ∧
            curr.price < prev.price ∧ sig = bosBear tf prev curr)) := by
  intro candles tf sig
  by_cases hlen : candles.length < 5
  · rw [detect_bos, if_pos hlen]
    simp only [List.not_mem_nil, false_iff]
    rintro ⟨hge, -⟩
    omega
  · rw [detect_bos, if_neg hlen, windowPairs_mem]
    constructor
    · rintro ⟨l₁, p, c, l₂, heq, hc⟩
      exact ⟨by omega, l₁, p, c, l₂, heq, (bosCheck_mem tf p c sig).mp hc⟩
    · rintro ⟨-, l₁, p, c, l₂, heq, hd⟩
      exact ⟨l₁, p, c, l₂, heq, (bosCheck_mem tf p c sig).mpr hd⟩

/-- C5 (witness): the amended characterisation applied at `candlesW5`,
whose swing sequence is two consecutive highs `[10, 12]`, producing the
bullish break of `10` by `12`. -/
theorem C5_bos_adjacent_same_type_witness :
    { type := "bullish", timeframe := "H1", price := 12, timestamp := 3,
      previous_swing := 10 } ∈ detect_bos candlesW5 "H1" := by
  refine (C5_bos_adjacent_same_type candlesW5 "H1" _).mpr ?_
  refine ⟨by decide, [], { type := .high, price := 10, time := 1 },
          { type := .high, price := 12, time := 3 }, [], by decide, Or.inl ?_⟩
  exact ⟨rfl, rfl, by norm_num, by norm_num, by simp [bosBull]⟩

/-- C4 (counterexample).  The claim says `analyze_ohlc_data` scans every
supplied timeframe series for any caller-defined key, in particular the
SOD workflow's `1h_DATA`/`4h_DATA`/`1D_DATA`/`1W_DATA` series.  On the
concrete SOD-shaped input `sodOhlc` — whose every series contains a
clear bullish FVG, as `detect_fvgs` confirms when pointed at it — the
analyzer detects nothing at all, because it only ever consults the keys
`H1`, `M15`, `M5`, `M1`. -/
theorem C4_sod_keys_counterexample :
    detect_fvgs fvgCandles "1h_DATA" ≠ [] ∧
    (analyze_ohlc_data sodOhlc []).fvgs = [] ∧
    (analyze_ohlc_data sodOhlc []).bos_signals = [] ∧
    (analyze_ohlc_data sodOhlc []).imbalances = [] ∧
    (analyze_ohlc_data sodOhlc []).price_action = none ∧
    (analyze_ohlc_data sodOhlc []).level_interactions = [] := by
  refine ⟨by decide, by decide, by decide, by decide, by decide, by decide⟩

/-- C4 (amended).  `analyze_ohlc_data` consults only the fixed keys
`H1`, `M15`, `M5`, `M1` (plus `current_price`): when all four are
absent or empty no FVG/BOS/imbalance is produced, and a series stored
under any other key — such as the SOD workflow's caller-defined
`…_DATA` keys — has no effect whatsoever on the analysis. -/
theorem C4_fixed_key_scan :
    (∀ (d : OhlcInput) (lockedLevels : List Level),
      d.get "H1" = [] → d.get "M15" = [] → d.get "M5" = [] → d.get "M1" = [] →
      (analyze_ohlc_data d lockedLevels).fvgs = [] ∧
      (analyze_ohlc_data d lockedLevels).bos_signals = [] ∧
      (analyze_ohlc_data d lockedLevels).imbalances = []) ∧
    (∀ (series : List (String × List Candle)) (cp : Option ℚ)
       (lockedLevels : List Level) (k : String) (candles : List Candle),
      k ≠ "H1" → k ≠ "M15" → k ≠ "M5" → k ≠ "M1" →
      analyze_ohlc_data ⟨(k, candles) :: series, cp⟩ lockedLevels =
        analyze_ohlc_data ⟨series, cp⟩ lockedLevels) := by
  constructor
  · intro d lockedLevels h1 h15 h5 hm1
    refine ⟨?_, ?_, ?_⟩ <;> simp [analyze_ohlc_data, h1, h15, h5, hm1]
  · intro series cp lockedLevels k candles hk1 hk15 hk5 hkm1
    have hget : ∀ key, k ≠ key →
        OhlcInput.get ⟨(k, candles) :: series, cp⟩ key =
          OhlcInput.get ⟨series, cp⟩ key := by
      intro key hkey
      simp [OhlcInput.get, alGet, hkey]
    have hpa : analyze_price_action ⟨(k, candles) :: series, cp⟩ =
        analyze_price_action ⟨series, cp⟩ := by
      simp only [analyze_price_action, hget "H1" hk1]
    simp only [analyze_ohlc_data, hget "H1" hk1, hget "M15" hk15,
               hget "M5" hk5, hget "M1" hkm1, hpa]

/-- C4 (witness): at the SOD-shaped input none of the four fixed keys
is present, so the amended theorem yields the empty detections. -/
theorem C4_fixed_key_scan_witness :
    (sodOhlc.get "H1" = [] ∧ sodOhlc.get "M15" = [] ∧
     sodOhlc.get "M5" = [] ∧ sodOhlc.get "M1" = []) ∧
    ((analyze_ohlc_data sodOhlc []).fvgs = [] ∧
     (analyze_ohlc_data sodOhlc []).bos_signals = [] ∧
     (analyze_ohlc_data sodOhlc []).imbalances = []) :=
  ⟨⟨by decide, by decide, by decide, by decide⟩,
   C4_fixed_key_scan.1 sodOhlc [] (by decide) (by decide) (by decide) (by decide)⟩

/- Helper lemmas: association lists and fetch bookkeeping. -/

theorem alGet_alSet_self {α : Type} (l : List (String × α)) (k : String) (v : α) :
    alGet (alSet l k v) k = some v := by
  induction l with
  | nil => simp [alGet, alSet]
  | cons p rest ih =>
      by_cases hp : p.1 = k
      · simp [alSet, alGet, hp]
      · simp [alSet, alGet, hp, ih]

theorem alGet_alSet_ne {α : Type} (l : List (String × α)) (k key : String) (v : α)
    (hne : key ≠ k) : alGet (alSet l k v) key = alGet l key := by
  induction l with
  | nil => simp [alGet, alSet, Ne.symm hne]
  | cons p rest ih =>
      by_cases hp : p.1 = k
      · simp [alSet, alGet, hp, Ne.symm hne]
      · by_cases hk : p.1 = key
        · simp [alSet, alGet, hp, hk, hne]
        · simp [alSet, alGet, hp, hk, ih]

theorem alGet_map_const {α : Type} (v : α) :
    ∀ (imgs : List ChartImage) (img : ChartImage), img ∈ imgs →
      alGet (imgs.map (fun i => (i.timeframe, v))) img.timeframe = some v := by
  intro imgs
  induction imgs with
  | nil => intro img h; simp at h
  | cons i rest ih =>
      intro img h
      by_cases hi : i.timeframe = img.timeframe
      · simp [alGet, hi]
      · rcases List.mem_cons.mp h with rfl | hmem
        · exact absurd rfl hi
        · simp only [List.map_cons, alGet, hi, if_false]
          exact ih img hmem

theorem fetchedCharts_timeframes (fetchChart : String → Option String) :
    ∀ timeframes : List String,
      (fetchedCharts fetchChart timeframes).map (·.timeframe) =
        timeframes.filter (fun tf => (fetchChart tf).isSome) := by
  intro tfs
  induction tfs with
  | nil => rfl
  | cons tf rest ih =>
      cases hf : fetchChart tf with
      | none => simpa [fetchedCharts, List.filterMap_cons, hf, List.filter_cons]
                  using ih
      | some b => simpa [fetchedCharts, List.filterMap_cons, hf, List.filter_cons]
                    using ih

theorem fetchedCharts_nil (fetchChart : String → Option String)
    (timeframes : List String) (h : ∀ tf ∈ timeframes, fetchChart tf = none) :
    fetchedCharts fetchChart timeframes = [] := by
  induction timeframes with
  | nil => rfl
  | cons tf rest ih =>
      simp only [fetchedCharts, List.filterMap_cons, h tf (by simp)]
      exact ih (fun t ht => h t (by simp [ht]))

/-- C8 (confirmed).  `analyze_charts_with_gpt_vision` with a non-empty
timeframe list: when no chart image can be fetched it raises
(`ValueError`, modelled as `.error`) instead of returning an empty
result; and any successful result analysed exactly the successfully
fetched timeframes — they are what the single vision request carries,
and what the `timeframes_analyzed` metadata lists, while
`timeframes_requested` records the original request. -/
theorem C8_chart_fetch_behaviour :
    ∀ (fetchChart : String → Option String)
      (callVision : VisionRequest → Except String (List Char))
      (jsonLoads : List Char → Option JValue) (symbol : String)
      (timeframes : List String), timeframes ≠ [] →
      ((∀ tf ∈ timeframes, fetchChart tf = none) →
        ∃ e, analyze_charts_with_gpt_vision true fetchChart callVision jsonLoads
              symbol timeframes = .error e) ∧
      (∀ r, analyze_charts_with_gpt_vision true fetchChart callVision jsonLoads
              symbol timeframes = .ok r →
        r.timeframes_analyzed = timeframes.filter (fun tf => (fetchChart tf).isSome) ∧
        r.timeframes_requested = timeframes ∧
        (fetchedCharts fetchChart timeframes).map (·.timeframe) =
          timeframes.filter (fun tf => (fetchChart tf).isSome) ∧
        ∃ resp, callVision ⟨CHART_ANALYSIS_PROMPT, fetchedCharts fetchChart timeframes⟩ =
          .ok resp) := by
  intro fetchChart callVision jsonLoads symbol timeframes _hne
  constructor
  · intro hall
    refine ⟨"Could not fetch any chart images for " ++
            format_symbol_for_chart symbol "forex" ++
            ". Check CHART_IMG_API_KEY and chart-img.com status.", ?_⟩
    simp only [analyze_charts_with_gpt_vision,
               fetchedCharts_nil fetchChart timeframes hall]
    rfl
  · intro r hr
    simp only [analyze_charts_with_gpt_vision] at hr
    rw [if_neg (by simp)] at hr
    by_cases hnil : fetchedCharts fetchChart timeframes = []
    · rw [if_pos hnil] at hr
      cases hr
    · rw [if_neg hnil] at hr
      cases hv : callVision ⟨CHART_ANALYSIS_PROMPT, fetchedCharts fetchChart timeframes⟩ with
      | error e => rw [hv] at hr; cases hr
      | ok resp =>
          rw [hv] at hr
          cases hr
          exact ⟨fetchedCharts_timeframes fetchChart timeframes, rfl,
                 fetchedCharts_timeframes fetchChart timeframes, resp, rfl⟩

/-- C8 (witness): the theorem applied at a concrete partial-failure
fetcher (H1 succeeds, H4 fails) with a parsable vision response, and —
through its first clause instantiated separately via `fetchNothing` —
at a concrete total-failure fetcher. -/
theorem C8_chart_fetch_behaviour_witness :
    (∃ e, analyze_charts_with_gpt_vision true fetchNothing visionOk jsonParse
          "GBPUSD" ["H1", "H4"] = .error e) ∧
    (∀ r, analyze_charts_with_gpt_vision true fetchH1Only visionOk jsonParse
            "GBPUSD" ["H1", "H4"] = .ok r →
      r.timeframes_analyzed =
        (["H1", "H4"].filter (fun tf => (fetchH1Only tf).isSome)) ∧
      r.timeframes_requested = ["H1", "H4"] ∧
      (fetchedCharts fetchH1Only ["H1", "H4"]).map (·.timeframe) =
        (["H1", "H4"].filter (fun tf => (fetchH1Only tf).isSome)) ∧
      ∃ resp, visionOk ⟨CHART_ANALYSIS_PROMPT, fetchedCharts fetchH1Only ["H1", "H4"]⟩ =
        .ok resp) :=
  ⟨(C8_chart_fetch_behaviour fetchNothing visionOk jsonParse "GBPUSD" ["H1", "H4"]
      (by simp)).1 (fun tf _ => rfl),
   (C8_chart_fetch_behaviour fetchH1Only visionOk jsonParse "GBPUSD" ["H1", "H4"]
      (by simp)).2⟩

/-- C9 (confirmed, reading "requested" as the timeframes included in
the vision request).  `_parse_chart_response` on a response that fails
JSON decoding does not raise: it returns a mapping carrying the raw
response text under every timeframe of the submitted chart images,
flagged with the `_parse_error` marker. -/
theorem C9_chart_parse_fallback :
    ∀ (jsonLoads : List Char → Option JValue) (responseText : List Char)
      (chartImages : List ChartImage),
      jsonAttempt jsonLoads responseText = none →
      (∀ img ∈ chartImages, img.timeframe ≠ "_parse_error" →
        (parse_chart_response jsonLoads responseText chartImages).get? img.timeframe =
          some (.str (String.mk responseText))) ∧
      (parse_chart_response jsonLoads responseText chartImages).get? "_parse_error" =
        some (.str "JSONDecodeError") := by
  intro jsonLoads responseText chartImages h
  unfold parse_chart_response
  rw [h]
  constructor
  · intro img hmem hne
    show alGet (alSet _ "_parse_error" _) img.timeframe = _
    rw [alGet_alSet_ne _ _ _ _ hne]
    exact alGet_map_const _ chartImages img hmem
  · exact alGet_alSet_self _ _ _

/-- C9 (witness): the fallback applied at a concrete unparsable
response and two submitted chart images. -/
theorem C9_chart_parse_fallback_witness :
    jsonAttempt jsonParse unparsableChartText = none ∧
    ((∀ img ∈ chartImages9, img.timeframe ≠ "_parse_error" →
      (parse_chart_response jsonParse unparsableChartText chartImages9).get?
        img.timeframe = some (.str (String.mk unparsableChartText))) ∧
     (parse_chart_response jsonParse unparsableChartText chartImages9).get?
       "_parse_error" = some (.str "JSONDecodeError")) :=
  ⟨rfl, C9_chart_parse_fallback jsonParse unparsableChartText chartImages9 rfl⟩

/- Helper lemmas for C10: stickiness of `completed_at`. -/

theorem sticky_map_upsert (t : SetupTable) (id setupId : String) (phase : String)
    (state : List (String × JValue)) (now : ℤ) (h : stickyCompleted t id) :
    stickyCompleted
      (t.map (fun r => if r.setup_id = setupId then upsertRow r phase state now else r))
      id := by
  obtain ⟨⟨r₀, hr₀, hid₀⟩, hall⟩ := h
  constructor
  · refine ⟨_, List.mem_map_of_mem _ hr₀, ?_⟩
    by_cases hc : r₀.setup_id = setupId
    · rw [if_pos hc]; exact hid₀
    · rw [if_neg hc]; exact hid₀
  · intro r hr hrid
    rcases List.mem_map.mp hr with ⟨r', hr', rfl⟩
    by_cases hc : r'.setup_id = setupId
    · rw [if_pos hc] at hrid ⊢
      exact hall r' hr' hrid
    · rw [if_neg hc] at hrid ⊢
      exact hall r' hr' hrid

theorem sticky_map_complete (t : SetupTable) (id setupId : String) (now : ℤ)
    (h : stickyCompleted t id) :
    stickyCompleted
      (t.map (fun r =>
        if r.setup_id = setupId then { r with completed_at := some now } else r))
      id := by
  obtain ⟨⟨r₀, hr₀, hid₀⟩, hall⟩ := h
  constructor
  · refine ⟨_, List.mem_map_of_mem _ hr₀, ?_⟩
    by_cases hc : r₀.setup_id = setupId
    · rw [if_pos hc]; exact hid₀
    · rw [if_neg hc]; exact hid₀
  · intro r hr hrid
    rcases List.mem_map.mp hr with ⟨r', hr', rfl⟩
    by_cases hc : r'.setup_id = setupId
    · simp [hc]
    · rw [if_neg hc] at hrid ⊢
      exact hall r' hr' hrid

theorem sticky_complete_all (t : SetupTable) (setupId : String) (now : ℤ)
    (hex : ∃ r ∈ t, r.setup_id = setupId) :
    stickyCompleted
      (t.map (fun r =>
        if r.setup_id = setupId then { r with completed_at := some now } else r))
      setupId := by
  obtain ⟨r₀, h₀, hid⟩ := hex
  constructor
  · refine ⟨_, List.mem_map_of_mem _ h₀, ?_⟩
    rw [if_pos hid]
    exact hid
  · intro r hr hrid
    rcases List.mem_map.mp hr with ⟨r', hr', rfl⟩
    by_cases hc : r'.setup_id = setupId
    · simp [hc]
    · rw [if_neg hc] at hrid
      exact absurd hrid hc

theorem sticky_after_stand_down (symbol setupId : String)
    (state : List (String × JValue)) (session : Option String) (now : ℤ)
    (table : SetupTable) (h : pyGetPhase state = "STAND_DOWN") :
    stickyCompleted (save_setup_state symbol setupId state session now table) setupId := by
  simp only [save_setup_state, h, if_pos rfl]
  apply sticky_complete_all
  by_cases hany : table.any (fun r => r.setup_id = setupId) = true
  · rw [if_pos hany]
    rcases List.any_eq_true.mp hany with ⟨r₀, hr₀, hid₀⟩
    refine ⟨_, List.mem_map_of_mem _ hr₀, ?_⟩
    simp only [decide_eq_true_eq] at hid₀
    simp [hid₀, upsertRow]
  · rw [if_neg hany]
    refine ⟨{ setup_id := setupId, symbol := symbol, session := session,
              phase := "STAND_DOWN", state_data := state, created_at := now,
              updated_at := now, completed_at := none },
            List.mem_append_right _ (by simp), rfl⟩

theorem sticky_preserved_by_save (symbol setupId : String)
    (state : List (String × JValue)) (session : Option String) (now : ℤ)
    (table : SetupTable) (id : String) (h : stickyCompleted table id) :
    stickyCompleted (save_setup_state symbol setupId state session now table) id := by
  have hupsert : stickyCompleted
      (if table.any (fun r => r.setup_id = setupId) then
        table.map (fun r =>
          if r.setup_id = setupId then upsertRow r (pyGetPhase state) state now else r)
      else
        table ++ [{ setup_id := setupId, symbol := symbol, session := session,
                    phase := pyGetPhase state, state_data := state, created_at := now,
                    updated_at := now, completed_at := none }]) id := by
    by_cases hany : table.any (fun r => r.setup_id = setupId) = true
    · rw [if_pos hany]
      exact sticky_map_upsert table id setupId _ state now h
    · rw [if_neg hany]
      obtain ⟨⟨r₀, hr₀, hid₀⟩, hall⟩ := h
      constructor
      · exact ⟨r₀, List.mem_append_left _ hr₀, hid₀⟩
      · intro r hr hrid
        rcases List.mem_append.mp hr with h1 | h2
        · exact hall r h1 hrid
        · simp only [List.mem_singleton] at h2
          subst h2
          exfalso
          exact hany (List.any_eq_true.mpr ⟨r₀, hr₀, by simp [hid₀, hrid.symm]⟩)
  simp only [save_setup_state]
  by_cases hsd : pyGetPhase state = "STAND_DOWN"
  · rw [hsd, if_pos rfl]
    apply sticky_map_complete _ _ _ _ ?_
    simpa [hsd] using hupsert
  · rw [if_neg hsd]
    exact hupsert

theorem sticky_applySaves (ops : List SaveOp) :
    ∀ (table : SetupTable) (id : String), stickyCompleted table id →
      stickyCompleted (applySaves ops table) id := by
  induction ops with
  | nil => intro table id h; exact h
  | cons op rest ih =>
      intro table id h
      exact ih _ id (sticky_preserved_by_save op.symbol op.setupId op.state
        op.session op.now table id h)

theorem byId_none_of_sticky (table : SetupTable) (id : String)
    (h : stickyCompleted table id) : get_active_setup_by_id table id = none := by
  rw [get_active_setup_by_id, List.find?_eq_none]
  intro r hr
  simp only [decide_eq_true_eq, not_and]
  intro hid hcomp
  exact h.2 r hr hid hcomp

theorem foldl_latest_mem :
    ∀ (l : List SetupRow) (acc : Option SetupRow) (r : SetupRow),
      l.foldl (fun acc r =>
        match acc with
        | none => some r
        | some b => if r.created_at > b.created_at then some r else some b) acc = some r →
      acc = some r ∨ r ∈ l := by
  intro l
  induction l with
  | nil => intro acc r h; exact Or.inl h
  | cons x t ih =>
      intro acc r h
      rcases ih _ r h with hacc | hmem
      · cases acc with
        | none =>
            simp only at hacc
            exact Or.inr (by simp [Option.some.inj hacc])
        | some b =>
            simp only at hacc
            split at hacc
            · exact Or.inr (by simp [Option.some.inj hacc])
            · exact Or.inl hacc
      · exact Or.inr (List.mem_cons_of_mem _ hmem)

theorem bySymbol_avoids_sticky (table : SetupTable) (id s : String) (r : SetupRow)
    (h : stickyCompleted table id)
    (hr : get_active_setup_by_symbol table s = some r) : r.setup_id ≠ id := by
  rcases foldl_latest_mem _ _ _ hr with hacc | hmem
  · cases hacc
  · rcases List.mem_filter.mp hmem with ⟨hmem', hpred⟩
    simp only [decide_eq_true_eq] at hpred
    intro hid
    exact h.2 r hmem' hid hpred.2

/-- C10 (confirmed).  Once `save_setup_state` has written phase
`STAND_DOWN` for a setup id (which sets `completed_at`), no later
`save_setup_state` call — for any phase, symbol or state — clears
`completed_at` for that id (the upsert's `DO UPDATE` never touches the
column), and `get_active_setup`, which selects only rows with
`completed_at IS NULL`, never returns that setup again, in either its
by-id or its by-symbol form: completion is sticky even though any phase
string is accepted on write. -/
theorem C10_completion_sticky :
    ∀ (table : SetupTable) (symbol setupId : String)
      (state : List (String × JValue)) (session : Option String) (now : ℤ)
      (ops : List SaveOp),
      pyGetPhase state = "STAND_DOWN" →
      stickyCompleted
        (applySaves ops (save_setup_state symbol setupId state session now table))
        setupId ∧
      get_active_setup_by_id
        (applySaves ops (save_setup_state symbol setupId state session now table))
        setupId = none ∧
      (∀ (s : String) (r : SetupRow),
        get_active_setup_by_symbol
          (applySaves ops (save_setup_state symbol setupId state session now table))
          s = some r → r.setup_id ≠ setupId) := by
  intro table symbol setupId state session now ops h
  have hsticky : stickyCompleted
      (applySaves ops (save_setup_state symbol setupId state session now table))
      setupId :=
    sticky_applySaves ops _ setupId
      (sticky_after_stand_down symbol setupId state session now table h)
  exact ⟨hsticky, byId_none_of_sticky _ _ hsticky,
         fun s r hr => bySymbol_avoids_sticky _ _ s r hsticky hr⟩

/-- C10 (witness): after a STAND_DOWN save for `setup-1` on an empty
table followed by a later WATCHING save for the same id, the setup is
still never returned as active. -/
theorem C10_completion_sticky_witness :
    pyGetPhase standDownState = "STAND_DOWN" ∧
    get_active_setup_by_id
      (applySaves [⟨"GBPUSD", "setup-1", watchingState, none, 200⟩]
        (save_setup_state "GBPUSD" "setup-1" standDownState none 100 []))
      "setup-1" = none :=
  ⟨rfl,
   (C10_completion_sticky [] "GBPUSD" "setup-1" standDownState none 100
      [⟨"GBPUSD", "setup-1", watchingState, none, 200⟩] rfl).2.1⟩

end BotCore
